import Mathlib

/-!
# Marketplace backend — credential and session lifecycle

Shallow embedding of `src/src/handlers/auth.rs` (the CORE of the spec):
password hashing/verification, signed session tokens, signup/confirm/login/
refresh, OTP reset, and the protected password update.

External cryptographic primitives (the `argon2` and `jsonwebtoken` crates)
are modelled structurally: the Argon2 digest is an explicit function
parameter `D : String → String → String` (salt → password → digest), and a
JWT is its claims payload together with a deterministic MAC over payload and
secret.  Database rows are typed records, so the `try_get` calls of the
source always succeed; the fallibility of each collaborator call (store
queries, hashing, encoding, e-mail delivery) is passed in as an explicit
outcome flag, mirroring exactly which Rust `Result` it stands for.
-/

namespace Auth

/-- Token payload, from `struct Claims` in auth.rs: `sub` (user id, a UUID
modelled as a `Nat`), `email`, `exp` (unix seconds). -/
structure Claims where
  sub : Nat
  email : String
  exp : Nat
deriving DecidableEq, Repr

/-- Modelled from the `jsonwebtoken` crate: the MAC (HS256 signature) over a
token's payload, a deterministic function of the secret and the claims.  The
concrete byte computation stands in for HMAC-SHA256; the proofs use only its
determinism and that it is never empty. -/
def mac (secret : String) (c : Claims) : List Nat :=
  36 :: (secret.data ++ c.email.data).map Char.toNat ++ [c.sub % 256, c.exp % 256]

/-- A signed token: the serialized claims plus the signature part. -/
structure Token where
  claims : Claims
  sig : List Nat
deriving DecidableEq, Repr

/-- Modelled from `jsonwebtoken::encode`: serialize the claims and sign them
with the secret (auth.rs lines 154-159, 260-265, 303-308, 422-427). -/
def encode (secret : String) (c : Claims) : Token :=
  ⟨c, mac secret c⟩

/-- Modelled from `jsonwebtoken::decode`: verify the signature and validate
`exp` against the current time with the given leeway (the crate accepts the
token while `exp ≥ now - leeway`, i.e. `now ≤ exp + leeway`).
`Validation::default()` has `leeway = 60`; `confirm` sets `leeway = 0`
explicitly (auth.rs line 181). -/
def decodeToken (secret : String) (leeway now : Nat) (t : Token) : Option Claims :=
  if t.sig = mac secret t.claims ∧ now ≤ t.claims.exp + leeway then some t.claims else none

/-- The leeway of `jsonwebtoken::Validation::default()`, used by `login`'s
callers of `decode` that do not override it (`refresh_token`, the guard). -/
def defaultLeeway : Nat := 60

/-- Flip one byte of a signature: replace byte `i` by its bitwise complement
(for a byte value `b`, `255 - b ≠ b`). -/
def flipByteAt (sig : List Nat) (i : Nat) : List Nat :=
  sig.set i (255 - sig.getD i 0)

/-- Modelled from the `argon2` crate: the PHC string produced by
`hash_password(...).to_string()` — algorithm tag, then the salt, then the
digest, `$`-separated. -/
def phcRender (salt digest : String) : String :=
  "$argon2id$" ++ salt ++ "$" ++ digest

/-- `argon2.hash_password(password, salt).to_string()` (auth.rs lines
123-128, 483-488): digest the password with the fresh salt and render the
self-describing PHC string.  `D` is the Argon2 digest function. -/
def hash_password (D : String → String → String) (salt pwd : String) : String :=
  phcRender salt (D salt pwd)

/-- Modelled from `argon2::PasswordHash::new`: parse a PHC string back into
its salt and digest.  Fails (`none`) on a structurally malformed string. -/
def parsePHC (s : String) : Option (String × String) :=
  if s.data.take 10 = "$argon2id$".data then
    let rest := s.data.drop 10
    let after := rest.dropWhile (fun c => c ≠ '$')
    if after = [] then none
    else some (⟨rest.takeWhile (fun c => c ≠ '$')⟩, ⟨after.tail⟩)
  else none

/-- `PasswordHash::new` followed by `Argon2::verify_password` (auth.rs lines
238-243): parse the stored hash (`none` models the `Err` branch mapped to a
500), recompute the digest with the embedded salt, compare. -/
def verify_password (D : String → String → String) (pwd stored : String) : Option Bool :=
  match parsePHC stored with
  | some (salt, digest) => some (D salt pwd == digest)
  | none => none

/-- A row of the `users` table (columns used by auth.rs: `id`, `first_name`,
`last_name`, `email`, `password`, `active`).  Rows are typed, so the
source's `try_get` calls on fetched rows always succeed in the model. -/
structure UserRow where
  id : Nat
  first_name : String
  last_name : String
  email : String
  password : String
  active : Bool
deriving DecidableEq, Repr

/-- A row of the `otp_tokens` table (columns used by auth.rs: `user_id`,
`otp`, `expires_at`; timestamps are unix seconds). -/
structure OtpRow where
  user_id : Nat
  otp : String
  expires_at : Nat
deriving DecidableEq, Repr

/-- The relational store the handlers touch: the `users` and `otp_tokens`
tables. -/
structure Db where
  users : List UserRow
  otps : List OtpRow
deriving DecidableEq, Repr

/-- `SELECT ... FROM users WHERE email = $1` with `fetch_optional`: the
first row whose email matches. -/
def findUserByEmail (db : Db) (email : String) : Option UserRow :=
  db.users.find? (fun u => u.email == email)

/-- `SELECT user_id FROM otp_tokens WHERE otp = $1 AND user_id = $2 AND
expires_at >= NOW()` with `fetch_optional` (auth.rs line 401). -/
def findOtpRow (db : Db) (otp : String) (user_id now : Nat) : Option OtpRow :=
  db.otps.find? (fun r => r.otp == otp && r.user_id == user_id && now ≤ r.expires_at)

/-- Seven days in seconds: every issued token's expiry is `now + 7 days`. -/
def sevenDays : Nat := 7 * 24 * 60 * 60

/-- Outcome of the `login` handler (auth.rs lines 214-272): a 401 with the
given body, a 200 with a token, or a 500 from a `map_err` branch. -/
inductive LoginResponse where
  | unauthorized (body : String)
  | okToken (token : Token)
  | internalError
deriving DecidableEq, Repr

/-- The `login` handler: look the user up by email; absent → generic
"Invalid credentials"; present and inactive → "Email not confirmed" (before
any password work); active → parse the stored hash (parse failure → 500),
verify the password, and on success issue a token with the submitted email
and a fresh 7-day expiry; otherwise "Invalid credentials". -/
def login (D : String → String → String) (secret : String) (now : Nat)
    (db : Db) (email pwd : String) : LoginResponse :=
  match findUserByEmail db email with
  | some user =>
    if !user.active then .unauthorized "Email not confirmed"
    else
      match verify_password D pwd user.password with
      | none => .internalError
      | some verified =>
        if verified then
          .okToken (encode secret { sub := user.id, email := email, exp := now + sevenDays })
        else .unauthorized "Invalid credentials"
  | none => .unauthorized "Invalid credentials"

/-- Outcome of the `otp_verify` handler (auth.rs lines 381-437). -/
inductive OtpVerifyResponse where
  | unauthorized (body : String)
  | okToken (message : String) (token : Token)
deriving DecidableEq, Repr

/-- The `otp_verify` handler: look the user up by email, then look for an
OTP row owned by that user whose `expires_at >= NOW()`; on a match issue a
7-day session token.  The handler runs no UPDATE or DELETE, so the store is
returned unchanged. -/
def otp_verify (secret : String) (now : Nat) (db : Db) (email otp : String) :
    OtpVerifyResponse × Db :=
  match findUserByEmail db email with
  | some user =>
    match findOtpRow db otp user.id now with
    | some _ =>
      (.okToken "Login successful" (encode secret { sub := user.id, email := email, exp := now + sevenDays }), db)
    | none => (.unauthorized "Invalid credentials", db)
  | none => (.unauthorized "Invalid credentials", db)

/-- Outcome of the `refresh_token` handler (auth.rs lines 284-314). -/
inductive RefreshResponse where
  | okToken (token : Token)
  | unauthorized (body : String)
deriving DecidableEq, Repr

/-- The `refresh_token` handler: decode the presented token with
`Validation::default()` (60-second leeway); on success issue a new token
with the same sub/email and a fresh 7-day expiry, else 401 "Invalid token". -/
def refresh_token (secret : String) (now : Nat) (t : Token) : RefreshResponse :=
  match decodeToken secret defaultLeeway now t with
  | some c => .okToken (encode secret { sub := c.sub, email := c.email, exp := now + sevenDays })
  | none => .unauthorized "Invalid token"

/-- Outcome of the `confirm` handler (auth.rs lines 175-201).  The error
body carries the formatted decode error; its text is irrelevant here. -/
inductive ConfirmResponse where
  | ok (body : String)
  | internalError
deriving DecidableEq, Repr

/-- The `confirm` handler: decode the path token with leeway 0; on success
run `UPDATE users SET active = true WHERE email = $1` and discard its result
(`let _ = ...`), then answer 200 unconditionally.  `updateFails` is the
outcome of that store call; when it fails no row changes. -/
def confirm (secret : String) (now : Nat) (updateFails : Bool) (db : Db) (t : Token) :
    ConfirmResponse × Db :=
  match decodeToken secret 0 now t with
  | some c =>
    let db' : Db :=
      if updateFails then db
      else ⟨db.users.map (fun u => if u.email == c.email then { u with active := true } else u), db.otps⟩
    (.ok "Email successfully confirmed!", db')
  | none => (.internalError, db)

/-- Outcome of the `signup` handler (auth.rs lines 107-173).  `panic` is an
`unwrap()` hitting an `Err`/`None`; `emailError` is the
`send_confirmation_email` failure propagated with `?`. -/
inductive SignupResult where
  | panic
  | conflict (body : String)
  | internalError
  | emailError
  | ok (message : String) (token : Token)
deriving DecidableEq, Repr

/-- The `signup` handler, with each collaborator's fallibility explicit:
`lookupFails` — the duplicate-email SELECT (`.unwrap()`); `hashFails` —
`hash_password` (`.unwrap()`); `insertFails` — the INSERT (`.map_err(500)?`);
`encodeFails` — JWT `encode` (`.unwrap()`); `regUrlFails` — the
`EMAIL_REGISTRATION_URL` env read (`.unwrap()`); `emailFails` — SMTP send
(`?`).  `newId` is the id the store assigns (`RETURNING id`), `salt` the
fresh `SaltString`.  The inserted row has `active = false`. -/
def signup (D : String → String → String) (secret salt : String) (now newId : Nat)
    (lookupFails hashFails insertFails encodeFails regUrlFails emailFails : Bool)
    (db : Db) (first_name last_name email pwd : String) : SignupResult × Db :=
  if lookupFails then (.panic, db)
  else if (findUserByEmail db email).isSome then
    (.conflict "User with this email already exists", db)
  else if hashFails then (.panic, db)
  else
    let password_hash := hash_password D salt pwd
    if insertFails then (.internalError, db)
    else
      let newUser : UserRow :=
        { id := newId, first_name := first_name, last_name := last_name
          email := email, password := password_hash, active := false }
      let db' : Db := ⟨db.users ++ [newUser], db.otps⟩
      if encodeFails then (.panic, db')
      else
        let token := encode secret { sub := newId, email := email, exp := now + sevenDays }
        if regUrlFails then (.panic, db')
        else if emailFails then (.emailError, db')
        else (.ok "Registration successful" token, db')

/-- Outcome of the `update_password` handler (auth.rs lines 475-502), which
runs after the `AuthenticatedUser` guard. -/
inductive UpdatePasswordResponse where
  | panic
  | internalError
  | notFound (body : String)
  | ok (body : String)
deriving DecidableEq, Repr

/-- The `update_password` handler: hash the submitted password with a fresh
salt (`.unwrap()`), then `UPDATE users SET password = $1 WHERE id = $2`
(`.map_err(500)?`); 404 when no row was affected.  `user_id` is the
authenticated caller's `claims.sub`. -/
def update_password (D : String → String → String) (salt : String)
    (hashFails updateFails : Bool) (db : Db) (user_id : Nat) (pwd : String) :
    UpdatePasswordResponse × Db :=
  if hashFails then (.panic, db)
  else
    let password_hash := hash_password D salt pwd
    if updateFails then (.internalError, db)
    else
      let affected := db.users.countP (fun u => u.id == user_id)
      let db' : Db :=
        ⟨db.users.map (fun u => if u.id == user_id then { u with password := password_hash } else u),
         db.otps⟩
      if affected = 0 then (.notFound "User not found", db')
      else (.ok "Password updated successfully", db')

/-- The identity digest: an injective, fixed-point-free instance of the
abstract Argon2 digest function, used to instantiate witnesses. -/
def idDigest : String → String → String := fun _ p => p

/-! ## Helper lemmas -/

theorem takeWhile_append_cons {p : Char → Bool} (l r : List Char) (x : Char)
    (hl : ∀ a ∈ l, p a = true) (hx : p x = false) :
    (l ++ x :: r).takeWhile p = l ∧ (l ++ x :: r).dropWhile p = x :: r := by
  induction l with
  | nil => simp [List.takeWhile_cons, List.dropWhile_cons, hx]
  | cons a l ih =>
    have ha : p a = true := hl a (by simp)
    have := ih (fun b hb => hl b (by simp [hb]))
    simp [List.takeWhile_cons, List.dropWhile_cons, ha, this.1, this.2]

/-- Parsing a rendered PHC string recovers the salt and the digest, provided
the salt contains no `$` (Argon2 salts are base64, hence `$`-free). -/
theorem parsePHC_phcRender (salt digest : String) (h : ∀ c ∈ salt.data, c ≠ '$') :
    parsePHC (phcRender salt digest) = some (salt, digest) := by
  have hdata : (phcRender salt digest).data =
      "$argon2id$".data ++ (salt.data ++ '$' :: digest.data) := by
    simp [phcRender, String.data_append]
  have hlen : ("$argon2id$".data : List Char).length = 10 := rfl
  have htake : (phcRender salt digest).data.take 10 = "$argon2id$".data := by
    rw [hdata]; exact List.take_left' hlen
  have hdrop : (phcRender salt digest).data.drop 10 = salt.data ++ '$' :: digest.data := by
    rw [hdata]; exact List.drop_left' hlen
  have hl : ∀ a ∈ salt.data, (fun c => decide (c ≠ '$')) a = true := by
    intro a ha; simpa using h a ha
  have hsplit := takeWhile_append_cons salt.data digest.data '$' hl (by simp)
  simp only [parsePHC, htake, hdrop, hsplit.1, hsplit.2, if_pos rfl]
  simp

/-- The rendered hash of any digest differs from the plaintext whenever the
digest is at least as long as the plaintext — in particular `idDigest`'s
rendered hash is never its own input (the fixed-point-freeness the
plaintext-never-stored invariant needs). -/
theorem phcRender_ne_of_le (s q d : String) (hlen : q.length ≤ d.length) :
    phcRender s d ≠ q := by
  intro he
  have hq : (phcRender s d).length = q.length := by rw [he]
  have h10 : ("$argon2id$" : String).length = 10 := rfl
  have h1 : ("$" : String).length = 1 := rfl
  simp only [phcRender, String.length_append, h10, h1] at hq
  omega

theorem idDigest_fixed_point_free (s q : String) : phcRender s (idDigest s q) ≠ q :=
  phcRender_ne_of_le s q q le_rfl

/-- Flipping a byte inside the signature always changes it. -/
theorem flipByteAt_ne (sig : List Nat) (i : Nat) (hi : i < sig.length) :
    flipByteAt sig i ≠ sig := by
  intro he
  rw [flipByteAt] at he
  have h1 : (sig.set i (255 - sig.getD i 0))[i]? = some (255 - sig.getD i 0) := by
    simp [List.getElem?_set_self, hi]
  rw [he] at h1
  have h2 : sig.getD i 0 = 255 - sig.getD i 0 := by
    conv_lhs => rw [List.getD_eq_getElem?_getD, h1]
    rfl
  omega

/-! ## C1 — password hashing round-trip -/

/-- C1: for every password `p`, verifying `p` against `hash(p)` yields
`true`; for every `p' ≠ p`, verifying `p'` against `hash(p)` yields `false`
(an `Ok(false)`, not an error), for any `$`-free salt and any digest
function that is injective at that salt. -/
theorem verify_hash_roundtrip (D : String → String → String) (salt p q : String)
    (hsalt : ∀ c ∈ salt.data, c ≠ '$')
    (hinj : ∀ a b, D salt a = D salt b → a = b) :
    verify_password D p (hash_password D salt p) = some true ∧
    (q ≠ p → verify_password D q (hash_password D salt p) = some false) := by
  constructor
  · simp [verify_password, hash_password, parsePHC_phcRender salt (D salt p) hsalt]
  · intro hne
    simp only [verify_password, hash_password, parsePHC_phcRender salt (D salt p) hsalt]
    have : (D salt q == D salt p) = false := by
      rw [beq_eq_false_iff_ne]
      intro he
      exact hne (hinj q p he)
    rw [this]

theorem verify_hash_roundtrip_witness :
    verify_password idDigest "pw" (hash_password idDigest "s" "pw") = some true ∧
    ("x" ≠ "pw" → verify_password idDigest "x" (hash_password idDigest "s" "pw") = some false) :=
  verify_hash_roundtrip idDigest "s" "pw" "x" (by decide) (fun _ _ h => h)

/-! ## C2 — token issue/decode round-trip and tamper detection -/

/-- C2: decoding a token issued from `c` with the same secret succeeds
whenever `exp` has not passed the validation window and reproduces `c.sub`
and `c.email` with a later-or-equal expiry; decoding any token whose
signature has one byte flipped fails, at every time and leeway. -/
theorem decode_encode_and_tamper (secret : String) (c : Claims) (leeway now i : Nat) :
    (now ≤ c.exp + leeway →
      ∃ c', decodeToken secret leeway now (encode secret c) = some c' ∧
        c'.sub = c.sub ∧ c'.email = c.email ∧ c.exp ≤ c'.exp)
    ∧ (i < (encode secret c).sig.length →
      ∀ lw n, decodeToken secret lw n ⟨c, flipByteAt (encode secret c).sig i⟩ = none) := by
  constructor
  · intro h
    exact ⟨c, by simp [decodeToken, encode, h], rfl, rfl, le_rfl⟩
  · intro hi lw n
    have hne : flipByteAt (encode secret c).sig i ≠ mac secret c :=
      flipByteAt_ne (mac secret c) i hi
    simp [decodeToken, hne]

theorem decode_encode_and_tamper_witness :
    (∃ c', decodeToken "k" 0 5 (encode "k" ⟨1, "a", 100⟩) = some c' ∧
      c'.sub = 1 ∧ c'.email = "a" ∧ 100 ≤ c'.exp) ∧
    decodeToken "k" 0 5 ⟨⟨1, "a", 100⟩, flipByteAt (encode "k" ⟨1, "a", 100⟩).sig 0⟩ = none :=
  ⟨(decode_encode_and_tamper "k" ⟨1, "a", 100⟩ 0 5 0).1 (by decide),
   (decode_encode_and_tamper "k" ⟨1, "a", 100⟩ 0 5 0).2 (by decide) 0 5⟩

/-! ## C3 — login case analysis -/

/-- C3: login answers the generic "Invalid credentials" when no user has the
email; the distinct "Email not confirmed" when the user exists with
`active = false` — whatever password is submitted, so the password is never
checked in that case; a fresh 7-day token when the user is active and the
password verifies; and "Invalid credentials" when it does not verify. -/
theorem login_cases (D : String → String → String) (secret : String) (now : Nat)
    (db : Db) (email pwd : String) :
    (findUserByEmail db email = none →
      login D secret now db email pwd = .unauthorized "Invalid credentials")
    ∧ (∀ u, findUserByEmail db email = some u → u.active = false →
      ∀ pwd', login D secret now db email pwd' = .unauthorized "Email not confirmed")
    ∧ (∀ u, findUserByEmail db email = some u → u.active = true →
      verify_password D pwd u.password = some true →
      login D secret now db email pwd =
        .okToken (encode secret { sub := u.id, email := email, exp := now + sevenDays }))
    ∧ (∀ u, findUserByEmail db email = some u → u.active = true →
      verify_password D pwd u.password = some false →
      login D secret now db email pwd = .unauthorized "Invalid credentials") := by
  refine ⟨fun h => by simp [login, h], fun u hu ha pwd' => by simp [login, hu, ha],
    fun u hu ha hv => ?_, fun u hu ha hv => ?_⟩
  · simp [login, hu, ha, hv]
  · simp [login, hu, ha, hv]

/-- An active user with password `"pw"` hashed under `idDigest`. -/
def userActive : UserRow :=
  { id := 1, first_name := "A", last_name := "B", email := "a@x.com",
    password := hash_password idDigest "s" "pw", active := true }

/-- A just-registered, unconfirmed user. -/
def userPending : UserRow :=
  { id := 2, first_name := "C", last_name := "D", email := "b@x.com",
    password := hash_password idDigest "s" "pw", active := false }

/-- A store instance for the login witness. -/
def dbLogin : Db := ⟨[userActive, userPending], []⟩

theorem login_cases_witness :
    login idDigest "k" 0 dbLogin "c@x.com" "pw" = .unauthorized "Invalid credentials"
    ∧ login idDigest "k" 0 dbLogin "b@x.com" "right-or-wrong" = .unauthorized "Email not confirmed"
    ∧ login idDigest "k" 0 dbLogin "a@x.com" "pw" =
      .okToken (encode "k" { sub := 1, email := "a@x.com", exp := 0 + sevenDays })
    ∧ login idDigest "k" 0 dbLogin "a@x.com" "wrong" = .unauthorized "Invalid credentials" :=
  ⟨(login_cases idDigest "k" 0 dbLogin "c@x.com" "pw").1 (by decide),
   (login_cases idDigest "k" 0 dbLogin "b@x.com" "x").2.1 userPending (by decide) (by decide)
     "right-or-wrong",
   (login_cases idDigest "k" 0 dbLogin "a@x.com" "pw").2.2.1 userActive (by decide) (by decide)
     (by decide),
   (login_cases idDigest "k" 0 dbLogin "a@x.com" "wrong").2.2.2 userActive (by decide) (by decide)
     (by decide)⟩

/-! ## C4 — OTP validity window

The source accepts an OTP row with `expires_at >= NOW()` (auth.rs line 401),
i.e. while `now ≤ expires_at`; the claim's strict `now < expires_at` fails
exactly at `now = expires_at`. -/

/-- A store with one active user owning one OTP row expiring at time 100. -/
def dbOtp : Db :=
  ⟨[{ id := 1, first_name := "A", last_name := "B", email := "a@x.com",
      password := hash_password idDigest "s" "pw", active := true }],
   [{ user_id := 1, otp := "123456", expires_at := 100 }]⟩

/-- Counterexample to C4 as stated: at `now = expires_at` (100), the claim
says verification fails, but `otp_verify` succeeds and issues a session
token. -/
theorem otp_verify_at_expiry_succeeds :
    (otp_verify "k" 100 dbOtp "a@x.com" "123456").1 =
      .okToken "Login successful" (encode "k" { sub := 1, email := "a@x.com", exp := 100 + sevenDays }) := by
  decide

/-- C4 (amended): `verify_otp` issues a session token exactly when the user
with the given email exists and some stored OTP row is owned by that user,
carries the submitted OTP value, and satisfies `now ≤ expires_at`; strictly
after `expires_at`, verification fails. -/
theorem otp_verify_amended (secret : String) (now : Nat) (db : Db) (email otp : String) :
    (∃ m t, (otp_verify secret now db email otp).1 = .okToken m t)
    ↔ ∃ u, findUserByEmail db email = some u ∧
        ∃ r ∈ db.otps, r.otp = otp ∧ r.user_id = u.id ∧ now ≤ r.expires_at := by
  constructor
  · rintro ⟨m, t, hmt⟩
    match hu : findUserByEmail db email with
    | none => simp only [otp_verify, hu] at hmt; exact absurd hmt (by simp)
    | some u =>
      refine ⟨u, rfl, ?_⟩
      match hr : findOtpRow db otp u.id now with
      | none => simp only [otp_verify, hu, hr] at hmt; exact absurd hmt (by simp)
      | some r =>
        have hmem := List.mem_of_find?_eq_some hr
        have hpred := List.find?_some hr
        simp only [Bool.and_eq_true, beq_iff_eq, decide_eq_true_eq] at hpred
        exact ⟨r, hmem, hpred.1.1, hpred.1.2, hpred.2⟩
  · rintro ⟨u, hu, r, hmem, hotp, hown, hexp⟩
    have : findOtpRow db otp u.id now ≠ none := by
      intro hnone
      have := List.find?_eq_none.mp hnone r hmem
      simp [hotp, hown, hexp] at this
    match hr : findOtpRow db otp u.id now with
    | none => exact absurd hr this
    | some r' =>
      exact ⟨"Login successful", encode secret { sub := u.id, email := email, exp := now + sevenDays },
        by simp only [otp_verify, hu, hr]⟩

/-! ## C5 — a successful OTP verification does not consume the row -/

/-- C5: `otp_verify` leaves the store unchanged, and after a success,
running it again on the resulting store (same correct, unexpired OTP)
succeeds again with another session token. -/
theorem otp_verify_not_consumed (secret : String) (now : Nat) (db : Db) (email otp : String) :
    (otp_verify secret now db email otp).2 = db
    ∧ (∀ m t, (otp_verify secret now db email otp).1 = .okToken m t →
      (otp_verify secret now (otp_verify secret now db email otp).2 email otp).1 = .okToken m t) := by
  have hdb : (otp_verify secret now db email otp).2 = db := by
    match hu : findUserByEmail db email with
    | none => simp only [otp_verify, hu]
    | some u =>
      match hr : findOtpRow db otp u.id now with
      | none => simp only [otp_verify, hu, hr]
      | some r => simp only [otp_verify, hu, hr]
  exact ⟨hdb, fun m t hmt => by rw [hdb, hmt]⟩

theorem otp_verify_not_consumed_witness :
    (otp_verify "k" 50 dbOtp "a@x.com" "123456").2 = dbOtp
    ∧ (otp_verify "k" 50 (otp_verify "k" 50 dbOtp "a@x.com" "123456").2 "a@x.com" "123456").1 =
      .okToken "Login successful" (encode "k" { sub := 1, email := "a@x.com", exp := 50 + sevenDays }) :=
  ⟨(otp_verify_not_consumed "k" 50 dbOtp "a@x.com" "123456").1,
   (otp_verify_not_consumed "k" 50 dbOtp "a@x.com" "123456").2
     "Login successful" (encode "k" { sub := 1, email := "a@x.com", exp := 50 + sevenDays })
     (by decide)⟩

/-! ## C6 — passwords are stored hashed, never as plaintext -/

/-- C6: every user-row write hashes before storing.  After `signup`, every
stored row is either an old row or carries the hasher's output on the
submitted plaintext — and not the plaintext itself; after `update_password`,
every stored password is either an old stored value or the hasher's output
on the submitted plaintext — and not the plaintext.  The hypothesis is the
hasher's fixed-point-freeness (a rendered hash never equals its input),
which `idDigest` satisfies. -/
theorem passwords_stored_hashed (D : String → String → String) (secret salt : String)
    (now newId : Nat) (db : Db) (fn ln email pwd : String) (uid : Nat)
    (hfix : ∀ s q, phcRender s (D s q) ≠ q) :
    (∀ u ∈ (signup D secret salt now newId false false false false false false
        db fn ln email pwd).2.users,
      u ∈ db.users ∨ (u.password = hash_password D salt pwd ∧ u.password ≠ pwd))
    ∧ (∀ u ∈ (update_password D salt false false db uid pwd).2.users,
      (∃ v ∈ db.users, u.password = v.password)
        ∨ (u.password = hash_password D salt pwd ∧ u.password ≠ pwd)) := by
  constructor
  · intro u hu
    by_cases hex : (findUserByEmail db email).isSome
    · left
      simpa [signup, hex] using hu
    · simp only [signup, hex, Bool.false_eq_true, if_false, if_neg] at hu
      simp only [List.mem_append, List.mem_singleton] at hu
      rcases hu with h | h
      · exact Or.inl h
      · refine Or.inr ⟨by rw [h], ?_⟩
        rw [h]
        exact hfix salt pwd
  · intro u hu
    have : u ∈ db.users.map (fun v => if v.id == uid then { v with password := hash_password D salt pwd } else v) := by
      by_cases haff : db.users.countP (fun v => v.id == uid) = 0
      · simpa [update_password, haff] using hu
      · simpa [update_password, haff] using hu
    rcases List.mem_map.mp this with ⟨v, hv, hvu⟩
    by_cases hid : (v.id == uid) = true
    · right
      rw [← hvu]
      simp only [hid, if_true]
      exact ⟨by simp, by simp; exact hfix salt pwd⟩
    · left
      exact ⟨v, hv, by rw [← hvu]; simp [hid]⟩

/-- An empty store for the signup witnesses. -/
def dbEmpty : Db := ⟨[], []⟩

/-- The row `signup` inserts for the witness input. -/
def insertedRow : UserRow :=
  { id := 1, first_name := "F", last_name := "L", email := "a@x.com",
    password := hash_password idDigest "s" "pw", active := false }

theorem passwords_stored_hashed_witness :
    insertedRow ∈ (dbEmpty.users)
      ∨ (insertedRow.password = hash_password idDigest "s" "pw" ∧ insertedRow.password ≠ "pw") :=
  (passwords_stored_hashed idDigest "k" "s" 0 1 dbEmpty "F" "L" "a@x.com" "pw" 1
      idDigest_fixed_point_free).1 insertedRow (by decide)

/-! ## C7 — refresh validity window

`refresh_token` decodes with `Validation::default()`, whose leeway is 60
seconds: a token whose `exp` passed less than a minute ago still refreshes,
so "an already-expired token cannot be refreshed" fails on the code. -/

/-- Counterexample to C7 as stated: at `now = 130` a token with `exp = 100`
has already expired, yet `refresh_token` succeeds (130 ≤ 100 + 60). -/
theorem refresh_expired_token_succeeds :
    refresh_token "k" 130 (encode "k" { sub := 1, email := "a", exp := 100 }) =
      .okToken (encode "k" { sub := 1, email := "a", exp := 130 + sevenDays }) := by
  decide

/-- C7 (amended): refresh fails with the 401 "Invalid token" when the
signature is invalid or the expiry lies more than the 60-second default
validation leeway in the past; on a token with a valid signature within the
window it succeeds, and the new token carries the same `sub` and `email`
with expiry `now + 7 days`. -/
theorem refresh_token_cases (secret : String) (now : Nat) (t : Token) :
    ((t.sig ≠ mac secret t.claims ∨ t.claims.exp + defaultLeeway < now) →
      refresh_token secret now t = .unauthorized "Invalid token")
    ∧ (t.sig = mac secret t.claims → now ≤ t.claims.exp + defaultLeeway →
      refresh_token secret now t =
        .okToken (encode secret
          { sub := t.claims.sub, email := t.claims.email, exp := now + sevenDays })) := by
  constructor
  · intro h
    have hdec : decodeToken secret defaultLeeway now t = none := by
      rcases h with h | h
      · simp [decodeToken, h]
      · simp [decodeToken]
        intro _
        omega
    simp [refresh_token, hdec]
  · intro hsig hexp
    have hdec : decodeToken secret defaultLeeway now t = some t.claims := by
      simp [decodeToken, hsig, hexp]
    simp [refresh_token, hdec]

theorem refresh_token_cases_witness :
    refresh_token "k" 200 (encode "k" { sub := 1, email := "a", exp := 100 }) =
      .unauthorized "Invalid token"
    ∧ refresh_token "k" 100 (encode "k" { sub := 1, email := "a", exp := 100 }) =
      .okToken (encode "k" { sub := 1, email := "a", exp := 100 + sevenDays }) :=
  ⟨(refresh_token_cases "k" 200 (encode "k" { sub := 1, email := "a", exp := 100 })).1
      (Or.inr (by decide)),
   (refresh_token_cases "k" 100 (encode "k" { sub := 1, email := "a", exp := 100 })).2
      rfl (by decide)⟩

/-! ## C8 — a failed confirmation e-mail does not roll back the insert -/

/-- C8: when every step up to the insert succeeds but the confirmation
e-mail fails, `signup` answers with the propagated error while the freshly
inserted row — `active = false` — stays committed in the store. -/
theorem signup_email_failure_keeps_user (D : String → String → String)
    (secret salt : String) (now newId : Nat) (db : Db) (fn ln email pwd : String)
    (hnodup : findUserByEmail db email = none) :
    (signup D secret salt now newId false false false false false true
        db fn ln email pwd).1 = .emailError
    ∧ { id := newId, first_name := fn, last_name := ln, email := email,
        password := hash_password D salt pwd, active := false }
      ∈ (signup D secret salt now newId false false false false false true
          db fn ln email pwd).2.users := by
  constructor
  · simp [signup, hnodup]
  · simp [signup, hnodup]

theorem signup_email_failure_keeps_user_witness :
    (signup idDigest "k" "s" 0 1 false false false false false true
        dbEmpty "F" "L" "a@x.com" "pw").1 = .emailError
    ∧ insertedRow
      ∈ (signup idDigest "k" "s" 0 1 false false false false false true
          dbEmpty "F" "L" "a@x.com" "pw").2.users :=
  signup_email_failure_keeps_user idDigest "k" "s" 0 1 dbEmpty "F" "L" "a@x.com" "pw" (by decide)

/-! ## C9 — confirm reports success unconditionally after a valid decode -/

/-- C9: whenever the path token decodes, `confirm` answers the 200 "Email
successfully confirmed!" — for every store (including one where no row has
the embedded email) and whether or not the UPDATE succeeds, since its
result is discarded. -/
theorem confirm_reports_success (secret : String) (now : Nat) (updateFails : Bool)
    (db : Db) (t : Token) (c : Claims)
    (h : decodeToken secret 0 now t = some c) :
    (confirm secret now updateFails db t).1 = .ok "Email successfully confirmed!" := by
  simp only [confirm, h]

theorem confirm_reports_success_witness :
    (confirm "k" 5 true dbEmpty (encode "k" { sub := 1, email := "a", exp := 100 })).1 =
      .ok "Email successfully confirmed!" :=
  confirm_reports_success "k" 5 true dbEmpty (encode "k" { sub := 1, email := "a", exp := 100 })
    { sub := 1, email := "a", exp := 100 } (by decide)

/-! ## C10 — signup panics on unwrapped collaborator failures -/

/-- C10: `signup` panics (an `unwrap` on an error) when the duplicate-email
lookup fails, when password hashing fails, or when token encoding fails —
whatever the later outcomes — while a failing user INSERT is instead mapped
to the InternalError response, not a panic. -/
theorem signup_unwrap_panics (D : String → String → String) (secret salt : String)
    (now newId : Nat) (db : Db) (fn ln email pwd : String) :
    (∀ b2 b3 b4 b5 b6,
      (signup D secret salt now newId true b2 b3 b4 b5 b6 db fn ln email pwd).1 = .panic)
    ∧ (findUserByEmail db email = none →
      (∀ b3 b4 b5 b6,
        (signup D secret salt now newId false true b3 b4 b5 b6 db fn ln email pwd).1 = .panic)
      ∧ (∀ b5 b6,
        (signup D secret salt now newId false false false true b5 b6 db fn ln email pwd).1 = .panic)
      ∧ (∀ b4 b5 b6,
        (signup D secret salt now newId false false true b4 b5 b6 db fn ln email pwd).1 =
          .internalError
        ∧ SignupResult.internalError ≠ .panic)) := by
  refine ⟨fun b2 b3 b4 b5 b6 => by simp [signup], fun hno => ⟨?_, ?_, ?_⟩⟩
  · intro b3 b4 b5 b6
    simp [signup, hno]
  · intro b5 b6
    simp [signup, hno]
  · intro b4 b5 b6
    exact ⟨by simp [signup, hno], by simp⟩

theorem signup_unwrap_panics_witness :
    (signup idDigest "k" "s" 0 1 true false false false false false
        dbEmpty "F" "L" "a@x.com" "pw").1 = .panic
    ∧ (signup idDigest "k" "s" 0 1 false true false false false false
        dbEmpty "F" "L" "a@x.com" "pw").1 = .panic
    ∧ (signup idDigest "k" "s" 0 1 false false false true false false
        dbEmpty "F" "L" "a@x.com" "pw").1 = .panic
    ∧ (signup idDigest "k" "s" 0 1 false false true false false false
        dbEmpty "F" "L" "a@x.com" "pw").1 = .internalError :=
  ⟨(signup_unwrap_panics idDigest "k" "s" 0 1 dbEmpty "F" "L" "a@x.com" "pw").1
      false false false false false,
   ((signup_unwrap_panics idDigest "k" "s" 0 1 dbEmpty "F" "L" "a@x.com" "pw").2
      (by decide)).1 false false false false,
   ((signup_unwrap_panics idDigest "k" "s" 0 1 dbEmpty "F" "L" "a@x.com" "pw").2
      (by decide)).2.1 false false,
   (((signup_unwrap_panics idDigest "k" "s" 0 1 dbEmpty "F" "L" "a@x.com" "pw").2
      (by decide)).2.2 false false false).1⟩

end Auth
